import Mathlib

/-!
# Verification of the `hwido-libro` database layer (`src/db.ts`)

Shallow embedding of the SQLite-backed `Database` class:
the schema-migration engine (`Database.migrate`), the writer registry
(`getOrAddWriter`, `addBookWriterLink`) and the book/review repository
(`addBook`, `addReview`, `getBooks`, `updateBook`).

The store is modelled as an explicit record of table contents plus the
persisted `user_version` counter, the `foreign_keys` pragma and the set of
legacy columns currently present on the `books` table (the schema of `books`
changes across migration steps, so column presence must be tracked to model
`ALTER TABLE ... ADD COLUMN` and queries that throw on a missing column).
Statements that can throw are modelled with `Except`; statements the source
wraps in `try/catch` are modelled by matching on the `Except` result.
-/

namespace Libro

/-- The `type` column of `writers` / `book_writers`:
`CHECK (type IN ('author', 'translator'))`. -/
inductive WriterType
  | author
  | translator
deriving DecidableEq, Repr

/-- Which columns the `books` table currently has beyond the permanent
`id, title, pages, pub_year, genre`.  The v1 schema has the legacy `author`
TEXT column; v2 adds `translator`; v3 adds `author_id` / `translator_id`;
the v4 rebuild drops all four. -/
structure BooksSchema where
  author : Bool
  translator : Bool
  author_id : Bool
  translator_id : Bool
deriving DecidableEq, Repr

/-- A row of `books`.  The four legacy fields hold the values of the
corresponding columns and are meaningful only while `BooksSchema` says the
column exists (a column that exists may still hold NULL = `none`). -/
structure BookRow where
  id : Nat
  title : String
  author : Option String
  translator : Option String
  author_id : Option Nat
  translator_id : Option Nat
  pages : Option Int
  pub_year : Option Int
  genre : Option String
deriving DecidableEq, Repr

/-- A row of `writers` (v3 DDL: `id PK, name TEXT NOT NULL UNIQUE,
type TEXT NOT NULL CHECK (type IN ('author','translator'))`). -/
structure WriterRow where
  id : Nat
  name : String
  type : WriterType
deriving DecidableEq, Repr

/-- A row of `book_writers` (v4 DDL: composite primary key
`(book_id, writer_id, type)`, foreign keys to `books` and `writers`). -/
structure BookWriterRow where
  book_id : Nat
  writer_id : Nat
  type : WriterType
deriving DecidableEq, Repr

/-- A row of `reviews`. -/
structure ReviewRow where
  id : Nat
  book_id : Nat
  date_read : String
  rating : Int
  review : String
deriving DecidableEq, Repr

/-- The whole persisted store: table contents, the `user_version` counter,
the `foreign_keys` pragma, the current `books` column set, and the
AUTOINCREMENT sequence of each table with a surrogate id
(`lastInsertRowId` of an insert is the updated sequence value). -/
structure DBState where
  version : Nat
  foreignKeys : Bool
  schema : BooksSchema
  books : List BookRow
  writers : List WriterRow
  bookWriters : List BookWriterRow
  reviews : List ReviewRow
  bookSeq : Nat
  writerSeq : Nat
  reviewSeq : Nat
deriving DecidableEq, Repr

/-- Errors raised by the SQLite driver, as far as this layer observes them. -/
inductive DBError
  | uniqueViolation
  | primaryKeyViolation
  | foreignKeyViolation
  | noSuchColumn
deriving DecidableEq, Repr

/-! ## Migration (`Database.migrate`, src/db.ts lines 20-224) -/

/-- The v1 block (`oldVersion < 1`): `CREATE TABLE IF NOT EXISTS` for `books`
(with the legacy `author TEXT NOT NULL` column) and `reviews`, then
`PRAGMA user_version = 1`.  Modelled for a fresh store, the only state with
version < 1 that arises: the tables are created empty with the v1 column set. -/
def v1step (s : DBState) : DBState :=
  { s with schema := ⟨true, false, false, false⟩, version := 1 }

/-- The v2 block (`oldVersion < 2`): probes `SELECT translator FROM books
LIMIT 1` inside `try/catch`; when the column is absent the probe throws and
the catch branch runs `ALTER TABLE books ADD COLUMN translator TEXT;`
(itself in a `try/catch` that cannot fire, the column being absent).
Then `PRAGMA user_version = 2`. -/
def v2step (s : DBState) : DBState :=
  let s :=
    if s.schema.translator then s
    else { s with schema := { s.schema with translator := true } }
  { s with version := 2 }

/-- The v3 block (`oldVersion < 3`): `CREATE TABLE IF NOT EXISTS writers`
(no-op on the modelled contents), then reads `PRAGMA table_info(books)` and
adds the `author_id` / `translator_id` INTEGER columns when absent.
Then `PRAGMA user_version = 3`. -/
def v3step (s : DBState) : DBState :=
  let s :=
    if s.schema.author_id then s
    else { s with schema := { s.schema with author_id := true } }
  let s :=
    if s.schema.translator_id then s
    else { s with schema := { s.schema with translator_id := true } }
  { s with version := 3 }

/-- Constraint check for inserting `rows` into `book_writers` as one
statement: the insert aborts (whole-statement rollback) when a row collides
with the composite primary key, the batch itself repeats a triple, or (with
`foreign_keys` ON) a referenced book or writer id does not exist. -/
def linkRowsViolate (s : DBState) (rows : List BookWriterRow) : Bool :=
  rows.any (fun r => s.bookWriters.any (fun e => e == r)) ||
  !(rows.dedup == rows) ||
  (s.foreignKeys &&
    rows.any (fun r =>
      !(s.books.any (fun b => b.id == r.book_id)) ||
      !(s.writers.any (fun w => w.id == r.writer_id))))

/-- Executes `INSERT INTO book_writers (book_id, writer_id, type) ...` for a
computed row batch, atomically: all rows are appended, or the statement
throws and nothing changes. -/
def insertLinkRows (s : DBState) (rows : List BookWriterRow) :
    Except DBError DBState :=
  if linkRowsViolate s rows then .error .primaryKeyViolation
  else .ok { s with bookWriters := s.bookWriters ++ rows }

/-- The v4 author backfill statement: `INSERT INTO book_writers (book_id,
writer_id, type) SELECT id, author_id, 'author' FROM books WHERE author_id
IS NOT NULL;`. -/
def insertAuthorLinks (s : DBState) : Except DBError DBState :=
  insertLinkRows s
    (s.books.filterMap fun b =>
      b.author_id.map fun aid => BookWriterRow.mk b.id aid .author)

/-- The v4 translator backfill statement: `INSERT INTO book_writers ...
SELECT id, translator_id, 'translator' FROM books WHERE translator_id IS NOT
NULL AND TRIM(translator) != '';`.  The statement references the legacy
`translator` TEXT column and throws when that column is absent; a NULL
`translator` value fails the `TRIM(translator) != ''` condition. -/
def insertTranslatorLinks (s : DBState) : Except DBError DBState :=
  if !s.schema.translator then .error .noSuchColumn
  else
    insertLinkRows s
      (s.books.filterMap fun b =>
        match b.translator_id, b.translator with
        | some tid, some t =>
            if t.trim != "" then some (BookWriterRow.mk b.id tid .translator)
            else none
        | _, _ => none)

/-- The v4 block (`oldVersion < 4`): create `book_writers` if absent; run the
author and translator backfills, each guarded by a column-probing `SELECT`
and wrapped in a `try/catch` whose catch only logs (`/* ignore */`) — a
failing backfill statement is swallowed and migration continues; then the
shadow rebuild of `books` (`PRAGMA foreign_keys = OFF`, create `books_new`
with only `id,title,pages,pub_year,genre`, copy those columns, drop `books`,
rename, `PRAGMA foreign_keys = ON`); then `PRAGMA user_version = 4`. -/
def v4step (s : DBState) : DBState :=
  let s :=
    if s.schema.author_id then
      match insertAuthorLinks s with
      | .ok s2 => s2
      | .error _ => s
    else s
  let s :=
    if s.schema.translator_id then
      match insertTranslatorLinks s with
      | .ok s2 => s2
      | .error _ => s
    else s
  let s := { s with foreignKeys := false }
  let s :=
    { s with
      books := s.books.map fun (b : BookRow) =>
        { b with author := none, translator := none,
                 author_id := none, translator_id := none },
      schema := ⟨false, false, false, false⟩,
      bookSeq := (s.books.map (fun (b : BookRow) => b.id)).foldr max 0 }
  let s := { s with foreignKeys := true }
  { s with version := 4 }

/-- `Database.migrate`: turns `PRAGMA foreign_keys` ON, reads
`PRAGMA user_version` once into `oldVersion`, and runs each versioned block
whose guard `oldVersion < k` holds, in order. -/
def migrate (s0 : DBState) : DBState :=
  let s := { s0 with foreignKeys := true }
  let oldVersion := s0.version
  let s := if oldVersion < 1 then v1step s else s
  let s := if oldVersion < 2 then v2step s else s
  let s := if oldVersion < 3 then v3step s else s
  let s := if oldVersion < 4 then v4step s else s
  s

/-! ## Writer registry (`getOrAddWriter`, `addBookWriterLink`) -/

/-- The lookup `SELECT id FROM writers WHERE name = ? AND type = ?;`
(first row in rowid order). -/
def writersLookup (s : DBState) (name : String) (ty : WriterType) :
    Option WriterRow :=
  s.writers.find? fun w => w.name == name && w.type == ty

/-- `Database.getOrAddWriter(name, type)`: returns the id of an existing
`(name, type)` row, otherwise runs `INSERT INTO writers (name, type) VALUES
(?, ?);` and returns `lastInsertRowId`.  The insert throws a UNIQUE
violation when any row already carries `name`, because the v3 DDL declares
`name TEXT NOT NULL UNIQUE` (uniqueness on the name alone). -/
def getOrAddWriter (s : DBState) (name : String) (ty : WriterType) :
    Except DBError (Nat × DBState) :=
  match writersLookup s name ty with
  | some w => .ok (w.id, s)
  | none =>
      if s.writers.any (fun w => w.name == name) then .error .uniqueViolation
      else
        let wid := s.writerSeq + 1
        .ok (wid,
          { s with writers := s.writers ++ [⟨wid, name, ty⟩],
                   writerSeq := wid })

/-- `Database.addBookWriterLink(bookId, writerId, type)`: a single-row
`INSERT INTO book_writers`. -/
def addBookWriterLink (s : DBState) (bookId writerId : Nat)
    (ty : WriterType) : Except DBError DBState :=
  insertLinkRows s [⟨bookId, writerId, ty⟩]

/-! ## Book and review repository -/

/-- Input of `addBook` (optional TS fields are `Option`, absent = `none`,
stored as SQL NULL via `?? null`). -/
structure BookInput where
  title : String
  pages : Option Int := none
  pub_year : Option Int := none
  genre : Option String := none
deriving DecidableEq, Repr

/-- `Database.addBook(book)`: `INSERT INTO books (title, pages, pub_year,
genre) VALUES (?, ?, ?, ?);` then returns `lastInsertRowId`.  No field is
validated; the insert targets the post-v4 `books` schema and cannot fail
(a TS string is never NULL, so `title TEXT NOT NULL` is always satisfied). -/
def addBook (s : DBState) (b : BookInput) : Nat × DBState :=
  let bid := s.bookSeq + 1
  (bid,
    { s with
      books := s.books ++
        [{ id := bid, title := b.title, author := none, translator := none,
           author_id := none, translator_id := none, pages := b.pages,
           pub_year := b.pub_year, genre := b.genre }],
      bookSeq := bid })

/-- Input of `addReview`. -/
structure ReviewInput where
  book_id : Nat
  date_read : Option String := none
  rating : Int
  review : String
deriving DecidableEq, Repr

/-- `Database.addReview(review)`: defaults `date_read` to the current date
(`today`, passed explicitly here since the embedding is pure), then
`INSERT INTO reviews (book_id, date_read, rating, review) VALUES
(?, ?, ?, ?);` and returns `lastInsertRowId`.  The rating is not inspected;
the only way the insert can throw is the `FOREIGN KEY(book_id)` constraint
(enforced because `migrate` turns `PRAGMA foreign_keys` ON). -/
def addReview (s : DBState) (today : String) (r : ReviewInput) :
    Except DBError (Nat × DBState) :=
  let date := r.date_read.getD today
  if s.foreignKeys && !(s.books.any fun b => b.id == r.book_id) then
    .error .foreignKeyViolation
  else
    let rid := s.reviewSeq + 1
    .ok (rid,
      { s with
        reviews := s.reviews ++ [⟨rid, r.book_id, date, r.rating, r.review⟩],
        reviewSeq := rid })

/-- Patch argument of `updateBook`: `none` models a TS field left
`undefined` (the `book.field !== undefined` checks). -/
structure BookPatch where
  title : Option String := none
  pages : Option Int := none
  pub_year : Option Int := none
  genre : Option String := none
deriving DecidableEq, Repr

/-- `Database.updateBook(bookId, book)`: collects `updateParts` for the
provided fields; when none is provided it returns before executing any
statement; otherwise runs `UPDATE books SET ... WHERE id = ?;`, which
rewrites the provided fields on every row whose id matches. -/
def updateBook (s : DBState) (bookId : Nat) (p : BookPatch) : DBState :=
  if p.title == none && p.pages == none && p.pub_year == none &&
      p.genre == none then
    s
  else
    { s with
      books := s.books.map fun b =>
        if b.id == bookId then
          { b with
            title := p.title.getD b.title,
            pages := match p.pages with | some v => some v | none => b.pages,
            pub_year :=
              match p.pub_year with | some v => some v | none => b.pub_year,
            genre :=
              match p.genre with | some v => some v | none => b.genre }
        else b }

/-! ## `Database.getBooks` (src/db.ts lines 295-364)

The SQL text is
`SELECT DISTINCT b.id, b.title, b.pages, b.pub_year, b.genre, w.id, w.name,
w.type FROM books b LEFT JOIN book_writers bw ON b.id = bw.book_id LEFT JOIN
writers w ON bw.writer_id = w.id [WHERE ...] ORDER BY b.id, w.type, w.name`.
The `ORDER BY` is evaluated here as: matching books sorted by `id` (the
primary key, so groups of equal `b.id` coincide with single book rows), and
inside each book its deduplicated join rows sorted by the
`(w.type, w.name)` key with SQL NULL ordered first. -/

/-- Filter argument of `getBooks`; `none` fields model absent TS fields. -/
structure Filter where
  id : Option Nat := none
  year : Option Int := none
deriving DecidableEq, Repr

/-- JS truthiness of `filter?.id` (a `number | undefined`): `undefined` and
`0` are falsy. -/
def jsTruthyNat : Option Nat → Bool
  | none => false
  | some n => n != 0

/-- JS truthiness of `filter?.year`. -/
def jsTruthyInt : Option Int → Bool
  | none => false
  | some n => n != 0

/-- The WHERE clause dispatch
`filter?.id ? "WHERE b.id = ?" : filter?.year ? "WHERE b.pub_year = ?" : ""`
as a row predicate (NULL `pub_year` never compares equal). -/
def filterPred (f : Option Filter) (b : BookRow) : Bool :=
  match f with
  | none => true
  | some f =>
      if jsTruthyNat f.id then b.id == f.id.getD 0
      else if jsTruthyInt f.year then b.pub_year == some (f.year.getD 0)
      else true

/-- One row of the SELECT: the five book columns plus the three writer
columns `(w.id, w.name, w.type)`, NULL (`none`) when the left joins found no
link or no matching writer. -/
structure JoinRow where
  book_id : Nat
  title : String
  pages : Option Int
  pub_year : Option Int
  genre : Option String
  writer : Option (Nat × String × WriterType)
deriving DecidableEq, Repr

/-- The two LEFT JOINs for one `books` row: one row per matching
`book_writers` link (writer columns NULL when `bw.writer_id` matches no
writer), or a single all-NULL-writer row when the book has no links. -/
def bookJoinRows (s : DBState) (b : BookRow) : List JoinRow :=
  let links := s.bookWriters.filter fun bw => bw.book_id == b.id
  if links.isEmpty then
    [⟨b.id, b.title, b.pages, b.pub_year, b.genre, none⟩]
  else
    links.map fun bw =>
      ⟨b.id, b.title, b.pages, b.pub_year, b.genre,
        (s.writers.find? fun w => w.id == bw.writer_id).map
          fun w => (w.id, w.name, w.type)⟩

/-- Sort index of the `w.type` text: `'author' < 'translator'`. -/
def wtypeIdx : WriterType → Nat
  | .author => 0
  | .translator => 1

/-- The `(w.type, w.name)` comparator of the ORDER BY, with NULL first. -/
def writerKeyLe : Option (Nat × String × WriterType) →
    Option (Nat × String × WriterType) → Bool
  | none, _ => true
  | some _, none => false
  | some (_, n1, t1), some (_, n2, t2) =>
      if wtypeIdx t1 == wtypeIdx t2 then decide (n1 ≤ n2)
      else decide (wtypeIdx t1 ≤ wtypeIdx t2)

/-- Comparator on book ids for the leading ORDER BY key. -/
def bookIdLe (a b : BookRow) : Bool := decide (a.id ≤ b.id)

/-- Stable insertion into a sorted list; `sortLe` below models the SQL
ORDER BY as a stable insertion sort (structural recursion, so concrete
queries evaluate inside the kernel). -/
def insertLe {α : Type} (le : α → α → Bool) (x : α) : List α → List α
  | [] => [x]
  | y :: ys => if le x y then x :: y :: ys else y :: insertLe le x ys

/-- Stable sort by a Boolean comparator. -/
def sortLe {α : Type} (le : α → α → Bool) : List α → List α
  | [] => []
  | x :: xs => insertLe le x (sortLe le xs)

/-- The DISTINCT deduplicated join rows of one book, sorted by the trailing
`(w.type, w.name)` ORDER BY key. -/
def bookRowsSorted (s : DBState) (b : BookRow) : List JoinRow :=
  sortLe (fun r1 r2 => writerKeyLe r1.writer r2.writer)
    ((bookJoinRows s b).dedup)

/-- The full result set of the SELECT, in returned order: books passing the
WHERE clause sorted by id (the leading ORDER BY key; `b.id` is the primary
key, so rows sharing a `b.id` belong to one book), each contributing its
sorted rows. -/
def sqlBookRows (s : DBState) (f : Option Filter) : List JoinRow :=
  (sortLe bookIdLe (s.books.filter (filterPred f))).flatMap fun b =>
    bookRowsSorted s b

/-- Element of the `reviews` array of a book view. -/
structure ReviewView where
  review : String
  rating : Int
  date_read : String
deriving DecidableEq, Repr

/-- The per-book review query `SELECT review, rating, date_read FROM reviews
WHERE book_id = ? ORDER BY date_read DESC`. -/
def bookReviews (s : DBState) (bookId : Nat) : List ReviewView :=
  (sortLe (fun r1 r2 => decide (r2.date_read ≤ r1.date_read))
      (s.reviews.filter fun r => r.book_id == bookId)).map
    fun r => ⟨r.review, r.rating, r.date_read⟩

/-- Element of the `authors` / `translators` arrays of a book view. -/
structure WriterView where
  id : Nat
  name : String
deriving DecidableEq, Repr

/-- The object `getBooks` builds per book. -/
structure BookView where
  id : Nat
  title : String
  pages : Option Int
  pub_year : Option Int
  genre : Option String
  authors : List WriterView
  translators : List WriterView
  reviews : List ReviewView
deriving DecidableEq, Repr

/-- The fresh entry `booksMap.set(bookId, {...})` creates when a book id is
first seen: core columns, empty writer arrays, reviews fetched eagerly. -/
def initView (s : DBState) (r : JoinRow) : BookView :=
  { id := r.book_id, title := r.title, pages := r.pages,
    pub_year := r.pub_year, genre := r.genre, authors := [],
    translators := [], reviews := bookReviews s r.book_id }

/-- `book.authors.push(writer)` / `book.translators.push(writer)` for the
row's writer columns (skipped when `writer_id` is NULL); dispatch is on
`w.type`, the writer's own type. -/
def pushWriter (v : BookView) (r : JoinRow) : BookView :=
  match r.writer with
  | none => v
  | some (wid, wname, wtype) =>
      match wtype with
      | .author => { v with authors := v.authors ++ [⟨wid, wname⟩] }
      | .translator => { v with translators := v.translators ++ [⟨wid, wname⟩] }

/-- One iteration of the `for (const row of rows)` loop over the insertion-
ordered `booksMap`, modelled as an association list: create the entry if the
id is unseen, then push the row's writer into that entry. -/
def applyRow (s : DBState) (acc : List (Nat × BookView)) (r : JoinRow) :
    List (Nat × BookView) :=
  let acc :=
    if acc.any (fun e => e.1 == r.book_id) then acc
    else acc ++ [(r.book_id, initView s r)]
  acc.map fun e => if e.1 == r.book_id then (e.1, pushWriter e.2 r) else e

/-- `Database.getBooks(filter)`: runs the query, folds the rows through the
`booksMap` loop, and returns `Array.from(booksMap.values())`. -/
def getBooks (s : DBState) (f : Option Filter) : List BookView :=
  ((sqlBookRows s f).foldl (applyRow s) []).map (·.2)

/-! ## Derived per-book formulation of `getBooks`

Used to state what the row-level fold computes: one view per matching book,
books in id order. -/

/-- The view of a book before any writer is pushed. -/
def bookBaseView (s : DBState) (b : BookRow) : BookView :=
  { id := b.id, title := b.title, pages := b.pages, pub_year := b.pub_year,
    genre := b.genre, authors := [], translators := [],
    reviews := bookReviews s b.id }

/-- The complete view of one book: its sorted rows folded through the
writer-pushing step. -/
def bookGroupView (s : DBState) (b : BookRow) : BookView :=
  (bookRowsSorted s b).foldl pushWriter (bookBaseView s b)

/-- Selects the `authors` or `translators` array of a view by role. -/
def roleList : WriterType → BookView → List WriterView
  | .author, v => v.authors
  | .translator, v => v.translators

/-- `wv` is a writer of book `bid` in role `ty`, as the join sees it: some
`book_writers` link of the book resolves (via the writer-id lookup of the
join) to a writer row with `wv`'s id and name whose own `type` is `ty`. -/
def linkedWriter (s : DBState) (bid : Nat) (ty : WriterType)
    (wv : WriterView) : Prop :=
  ∃ bw ∈ s.bookWriters, bw.book_id = bid ∧
    ∃ w, (s.writers.find? fun w2 => w2.id == bw.writer_id) = some w ∧
      w.id = wv.id ∧ w.name = wv.name ∧ w.type = ty

/-! ## Concrete stores used as test inputs -/

/-- A store that was never opened: fresh file, `user_version = 0`. -/
def freshStore : DBState :=
  ⟨0, false, ⟨false, false, false, false⟩, [], [], [], [], 0, 0, 0⟩

/-- The post-migration empty store (`migrate freshStore` — by evaluation). -/
def emptyStore : DBState :=
  ⟨4, true, ⟨false, false, false, false⟩, [], [], [], [], 0, 0, 0⟩

/-- A stored-at-version-1 library: one book with the legacy `author` TEXT
column holding `"A"`, no translator/id columns yet. -/
def storeV1 : DBState :=
  ⟨1, false, ⟨true, false, false, false⟩,
   [⟨1, "T", some "A", none, none, none, none, none, none⟩],
   [], [], [], 1, 0, 0⟩

/-- A version-3 store on which the v4 author backfill statement fails: the
book's `author_id` is `7` but no writer with id 7 exists, so the insert into
`book_writers` violates its foreign key (with `foreign_keys` ON). -/
def storeV3broken : DBState :=
  ⟨3, false, ⟨true, true, true, false⟩,
   [⟨1, "T", some "A", none, some 7, none, none, none, none⟩],
   [], [], [], 1, 0, 0⟩

/-- `emptyStore` after `getOrAddWriter "X" author`. -/
def storeWriterX : DBState :=
  { emptyStore with writers := [⟨1, "X", .author⟩], writerSeq := 1 }

/-- `emptyStore` after `addBook {title:"T"}`. -/
def storeOneBook : DBState :=
  { emptyStore with
    books := [⟨1, "T", none, none, none, none, none, none, none⟩],
    bookSeq := 1 }

/-- A populated store: three books (ids 1..3, titles "Z","A","B", years
5,5,7), one writer linked as author of book 1, one review of book 1. -/
def storeYears : DBState :=
  ⟨4, true, ⟨false, false, false, false⟩,
   [⟨1, "Z", none, none, none, none, none, some 5, none⟩,
    ⟨2, "A", none, none, none, none, none, some 5, none⟩,
    ⟨3, "B", none, none, none, none, none, some 7, none⟩],
   [⟨1, "W", .author⟩],
   [⟨1, 1, .author⟩],
   [⟨1, 1, "2024-01-01", 5, "good"⟩],
   3, 1, 1⟩

/-! ## Supporting lemmas about the `getBooks` fold -/

theorem insertLe_perm {α : Type} (le : α → α → Bool) (x : α) (l : List α) :
    List.Perm (insertLe le x l) (x :: l) := by
  induction l with
  | nil => rfl
  | cons y ys ih =>
      unfold insertLe
      split
      · rfl
      · exact (ih.cons y).trans (List.Perm.swap x y ys)

theorem sortLe_perm {α : Type} (le : α → α → Bool) (l : List α) :
    List.Perm (sortLe le l) l := by
  induction l with
  | nil => rfl
  | cons x xs ih =>
      exact (insertLe_perm le x (sortLe le xs)).trans (ih.cons x)

theorem mem_sortLe {α : Type} (le : α → α → Bool) (a : α) (l : List α) :
    a ∈ sortLe le l ↔ a ∈ l :=
  (sortLe_perm le l).mem_iff

theorem length_sortLe {α : Type} (le : α → α → Bool) (l : List α) :
    (sortLe le l).length = l.length :=
  (sortLe_perm le l).length_eq

theorem mem_bookJoinRows_fields (s : DBState) (b : BookRow) (r : JoinRow)
    (hr : r ∈ bookJoinRows s b) :
    r.book_id = b.id ∧ r.title = b.title ∧ r.pages = b.pages ∧
    r.pub_year = b.pub_year ∧ r.genre = b.genre := by
  simp only [bookJoinRows] at hr
  split at hr
  · simp only [List.mem_singleton] at hr
    subst hr
    exact ⟨rfl, rfl, rfl, rfl, rfl⟩
  · simp only [List.mem_map] at hr
    obtain ⟨bw, _, rfl⟩ := hr
    exact ⟨rfl, rfl, rfl, rfl, rfl⟩

theorem mem_bookRowsSorted (s : DBState) (b : BookRow) (r : JoinRow) :
    r ∈ bookRowsSorted s b ↔ r ∈ bookJoinRows s b := by
  unfold bookRowsSorted
  rw [mem_sortLe, List.mem_dedup]

theorem bookJoinRows_ne_nil (s : DBState) (b : BookRow) :
    bookJoinRows s b ≠ [] := by
  simp only [bookJoinRows]
  split
  · simp
  · rename_i hne
    intro hmap
    rw [List.map_eq_nil_iff] at hmap
    rw [hmap] at hne
    simp at hne

theorem bookRowsSorted_ne_nil (s : DBState) (b : BookRow) :
    bookRowsSorted s b ≠ [] := by
  unfold bookRowsSorted
  intro h
  have hlen := congrArg List.length h
  rw [length_sortLe] at hlen
  simp only [List.length_nil] at hlen
  exact bookJoinRows_ne_nil s b
    ((List.dedup_eq_nil _).mp (List.length_eq_zero.mp hlen))

theorem map_pushWriter_entry (acc : List (Nat × BookView))
    (r : JoinRow) (v : BookView) (hfresh : ∀ e ∈ acc, e.1 ≠ r.book_id) :
    ((acc ++ [(r.book_id, v)]).map fun e =>
        if e.1 == r.book_id then (e.1, pushWriter e.2 r) else e) =
      acc ++ [(r.book_id, pushWriter v r)] := by
  rw [List.map_append]
  have h1 : (acc.map fun e =>
      if e.1 == r.book_id then (e.1, pushWriter e.2 r) else e) = acc := by
    have := List.map_congr_left
      (l := acc)
      (f := fun e => if e.1 == r.book_id then (e.1, pushWriter e.2 r) else e)
      (g := id) (fun e he => by simp [hfresh e he])
    simpa using this
  rw [h1]
  simp

theorem applyRow_stale (s : DBState) (acc : List (Nat × BookView))
    (r : JoinRow) (v : BookView) (hfresh : ∀ e ∈ acc, e.1 ≠ r.book_id) :
    applyRow s (acc ++ [(r.book_id, v)]) r =
      acc ++ [(r.book_id, pushWriter v r)] := by
  simp only [applyRow]
  have hany : ((acc ++ [(r.book_id, v)]).any fun e => e.1 == r.book_id)
      = true := by
    simp
  rw [hany]
  exact map_pushWriter_entry acc r v hfresh

theorem applyRow_fresh (s : DBState) (acc : List (Nat × BookView))
    (r : JoinRow) (hfresh : ∀ e ∈ acc, e.1 ≠ r.book_id) :
    applyRow s acc r =
      acc ++ [(r.book_id, pushWriter (initView s r) r)] := by
  simp only [applyRow]
  have hany : (acc.any fun e => e.1 == r.book_id) = false := by
    rw [List.any_eq_false]
    intro e he
    simp [hfresh e he]
  rw [hany]
  simp only [Bool.false_eq_true, if_false]
  exact map_pushWriter_entry acc r (initView s r) hfresh

theorem foldl_applyRow_group (s : DBState) (bid : Nat) (rows : List JoinRow) :
    ∀ (acc : List (Nat × BookView)) (v : BookView),
      (∀ r ∈ rows, r.book_id = bid) → (∀ e ∈ acc, e.1 ≠ bid) →
      rows.foldl (applyRow s) (acc ++ [(bid, v)]) =
        acc ++ [(bid, rows.foldl pushWriter v)] := by
  induction rows with
  | nil => intro acc v _ _; rfl
  | cons r rest ih =>
      intro acc v hrows hfresh
      have hr : r.book_id = bid := hrows r (by simp)
      rw [List.foldl_cons]
      rw [show (bid, v) = (r.book_id, v) by rw [hr]]
      rw [applyRow_stale s acc r v (by rw [hr]; exact hfresh)]
      rw [show (r.book_id, pushWriter v r) = (bid, pushWriter v r) by rw [hr]]
      rw [List.foldl_cons]
      exact ih acc (pushWriter v r) (fun r2 h2 => hrows r2 (by simp [h2]))
        hfresh

theorem initView_eq_base (s : DBState) (b : BookRow) (r : JoinRow)
    (hr : r ∈ bookJoinRows s b) : initView s r = bookBaseView s b := by
  obtain ⟨h1, h2, h3, h4, h5⟩ := mem_bookJoinRows_fields s b r hr
  unfold initView bookBaseView
  rw [h1, h2, h3, h4, h5]

theorem foldl_applyRow_flatMap (s : DBState) (L : List BookRow) :
    ∀ (acc : List (Nat × BookView)),
      (∀ b ∈ L, ∀ e ∈ acc, e.1 ≠ b.id) →
      ((L.map fun b => b.id).Nodup) →
      (L.flatMap fun b => bookRowsSorted s b).foldl (applyRow s) acc =
        acc ++ L.map fun b => (b.id, bookGroupView s b) := by
  induction L with
  | nil => intro acc _ _; simp
  | cons b rest ih =>
      intro acc hfresh hnd
      rw [List.flatMap_cons, List.foldl_append]
      have hfresh_b : ∀ e ∈ acc, e.1 ≠ b.id :=
        fun e he => hfresh b (by simp) e he
      have hgroup : (bookRowsSorted s b).foldl (applyRow s) acc =
          acc ++ [(b.id, bookGroupView s b)] := by
        cases hg : bookRowsSorted s b with
        | nil => exact absurd hg (bookRowsSorted_ne_nil s b)
        | cons r0 rs =>
            have hr0 : r0 ∈ bookJoinRows s b := by
              rw [← mem_bookRowsSorted, hg]
              simp
            have hr0id : r0.book_id = b.id :=
              (mem_bookJoinRows_fields s b r0 hr0).1
            rw [List.foldl_cons,
              applyRow_fresh s acc r0 (by rw [hr0id]; exact hfresh_b),
              hr0id, initView_eq_base s b r0 hr0,
              foldl_applyRow_group s b.id rs acc
                (pushWriter (bookBaseView s b) r0)
                (fun r2 h2 => (mem_bookJoinRows_fields s b r2
                  ((mem_bookRowsSorted s b r2).mp (by rw [hg]; simp [h2]))).1)
                hfresh_b]
            unfold bookGroupView
            rw [hg, List.foldl_cons]
      rw [hgroup]
      have hnd2 := List.nodup_cons.mp hnd
      rw [ih (acc ++ [(b.id, bookGroupView s b)]) ?fresh2 hnd2.2]
      · simp
      case fresh2 =>
        intro b2 hb2 e he
        rcases List.mem_append.mp he with h | h
        · exact hfresh b2 (by simp [hb2]) e h
        · simp only [List.mem_singleton] at h
          subst h
          intro hcon
          simp only at hcon
          apply hnd2.1
          show b.id ∈ List.map (fun b3 => b3.id) rest
          rw [hcon]
          exact List.mem_map_of_mem (fun b3 => b3.id) hb2

theorem getBooks_eq_groups (s : DBState) (f : Option Filter)
    (hnd : (s.books.map fun b => b.id).Nodup) :
    getBooks s f =
      (sortLe bookIdLe (s.books.filter (filterPred f))).map
        fun b => bookGroupView s b := by
  unfold getBooks sqlBookRows
  have hnd2 : ((sortLe bookIdLe (s.books.filter (filterPred f))).map
      fun b => b.id).Nodup := by
    have hsub : ((s.books.filter (filterPred f)).map fun b => b.id).Nodup :=
      ((List.filter_sublist s.books).map fun b => b.id).nodup hnd
    exact (((sortLe_perm bookIdLe
      (s.books.filter (filterPred f))).map fun b => b.id).nodup_iff
      ).mpr hsub
  rw [foldl_applyRow_flatMap s _ [] (by simp) hnd2]
  simp

theorem pushWriter_id (v : BookView) (r : JoinRow) :
    (pushWriter v r).id = v.id := by
  unfold pushWriter
  cases r.writer with
  | none => rfl
  | some t =>
      obtain ⟨wid, wname, wt⟩ := t
      cases wt <;> rfl

theorem pushWriter_reviews (v : BookView) (r : JoinRow) :
    (pushWriter v r).reviews = v.reviews := by
  unfold pushWriter
  cases r.writer with
  | none => rfl
  | some t =>
      obtain ⟨wid, wname, wt⟩ := t
      cases wt <;> rfl

theorem foldl_pushWriter_id (rows : List JoinRow) :
    ∀ v : BookView, (rows.foldl pushWriter v).id = v.id := by
  induction rows with
  | nil => intro v; rfl
  | cons r rest ih =>
      intro v
      rw [List.foldl_cons, ih, pushWriter_id]

theorem foldl_pushWriter_reviews (rows : List JoinRow) :
    ∀ v : BookView, (rows.foldl pushWriter v).reviews = v.reviews := by
  induction rows with
  | nil => intro v; rfl
  | cons r rest ih =>
      intro v
      rw [List.foldl_cons, ih, pushWriter_reviews]

theorem bookGroupView_id (s : DBState) (b : BookRow) :
    (bookGroupView s b).id = b.id := by
  unfold bookGroupView
  rw [foldl_pushWriter_id]
  rfl

theorem bookGroupView_reviews (s : DBState) (b : BookRow) :
    (bookGroupView s b).reviews = bookReviews s b.id := by
  unfold bookGroupView
  rw [foldl_pushWriter_reviews]
  rfl

theorem mem_roleList_pushWriter (ty : WriterType) (v : BookView)
    (r : JoinRow) (wv : WriterView) :
    wv ∈ roleList ty (pushWriter v r) ↔
      wv ∈ roleList ty v ∨ r.writer = some (wv.id, wv.name, ty) := by
  obtain ⟨wvid, wvname⟩ := wv
  unfold pushWriter
  cases hw : r.writer with
  | none => simp
  | some t =>
      obtain ⟨wid, wname, wt⟩ := t
      cases wt <;> cases ty <;>
        simp [roleList, WriterView.mk.injEq, Prod.mk.injEq, eq_comm]

theorem mem_roleList_foldl (ty : WriterType) (rows : List JoinRow) :
    ∀ (v : BookView) (wv : WriterView),
      wv ∈ roleList ty (rows.foldl pushWriter v) ↔
        wv ∈ roleList ty v ∨
          ∃ r ∈ rows, r.writer = some (wv.id, wv.name, ty) := by
  induction rows with
  | nil => simp
  | cons r rest ih =>
      intro v wv
      rw [List.foldl_cons, ih, mem_roleList_pushWriter]
      simp only [List.mem_cons]
      constructor
      · rintro ((h | h) | ⟨r2, h2, h3⟩)
        · exact Or.inl h
        · exact Or.inr ⟨r, Or.inl rfl, h⟩
        · exact Or.inr ⟨r2, Or.inr h2, h3⟩
      · rintro (h | ⟨r2, (rfl | h2), h3⟩)
        · exact Or.inl (Or.inl h)
        · exact Or.inl (Or.inr h3)
        · exact Or.inr ⟨r2, h2, h3⟩

theorem exists_joinRow_writer (s : DBState) (b : BookRow) (ty : WriterType)
    (wv : WriterView) :
    (∃ r ∈ bookJoinRows s b, r.writer = some (wv.id, wv.name, ty)) ↔
      linkedWriter s b.id ty wv := by
  simp only [bookJoinRows, linkedWriter]
  split
  · rename_i hemp
    rw [List.isEmpty_iff] at hemp
    constructor
    · rintro ⟨r, hr, hw⟩
      simp only [List.mem_singleton] at hr
      subst hr
      cases hw
    · rintro ⟨bw, hbw, hbid, -⟩
      have : bw ∈ s.bookWriters.filter fun bw2 => bw2.book_id == b.id := by
        rw [List.mem_filter]
        exact ⟨hbw, by simp [hbid]⟩
      rw [hemp] at this
      cases this
  · constructor
    · rintro ⟨r, hr, hw⟩
      simp only [List.mem_map] at hr
      obtain ⟨bw, hbw, rfl⟩ := hr
      rw [List.mem_filter] at hbw
      simp only [Option.map_eq_some'] at hw
      obtain ⟨w, hfind, hproj⟩ := hw
      simp only [Prod.mk.injEq] at hproj
      exact ⟨bw, hbw.1, by simpa using hbw.2,
        w, hfind, hproj.1, hproj.2.1, hproj.2.2⟩
    · rintro ⟨bw, hbw, hbid, w, hfind, hid, hname, hty⟩
      refine ⟨⟨b.id, b.title, b.pages, b.pub_year, b.genre,
        (s.writers.find? fun w2 => w2.id == bw.writer_id).map
          fun w2 => (w2.id, w2.name, w2.type)⟩, ?_, ?_⟩
      · simp only [List.mem_map]
        exact ⟨bw, List.mem_filter.mpr ⟨hbw, by simp [hbid]⟩, rfl⟩
      · rw [hfind]
        simp [hid, hname, hty]

theorem bookGroupView_role (s : DBState) (b : BookRow) (ty : WriterType)
    (wv : WriterView) :
    wv ∈ roleList ty (bookGroupView s b) ↔ linkedWriter s b.id ty wv := by
  unfold bookGroupView
  rw [mem_roleList_foldl]
  have hbase : roleList ty (bookBaseView s b) = [] := by
    cases ty <;> rfl
  rw [hbase]
  simp only [List.not_mem_nil, false_or]
  rw [← exists_joinRow_writer s b ty wv]
  constructor
  · rintro ⟨r, hr, hw⟩
    exact ⟨r, (mem_bookRowsSorted s b r).mp hr, hw⟩
  · rintro ⟨r, hr, hw⟩
    exact ⟨r, (mem_bookRowsSorted s b r).mpr hr, hw⟩

theorem filterPred_year (y : Int) (hy : y ≠ 0) (b : BookRow) :
    filterPred (some ⟨none, some y⟩) b = (b.pub_year == some y) := by
  simp only [filterPred, jsTruthyNat, jsTruthyInt]
  simp [hy]

/-! ## Theorems -/

/-- Claim C1: migrating a version-1 store holding `books(id=1, title="T",
author="A")` to v4 does NOT produce the claimed `writers` and `book_writers`
rows: the migration never reads the legacy `author` TEXT column (the v4
backfill copies only the never-populated `author_id`/`translator_id`
columns), so both tables end up empty, while the rebuilt `books` table does
lose the `author` column.  This contradicts the claim and the source's own
comments that v3/v4 perform the data migration from the old TEXT columns. -/
theorem migrate_v1_drops_legacy_author_data :
    (migrate storeV1).writers = [] ∧ (migrate storeV1).bookWriters = [] ∧
    (migrate storeV1).schema.author = false ∧
    (migrate storeV1).version = 4 ∧
    (migrate storeV1).books =
      [⟨1, "T", none, none, none, none, none, none, none⟩] := by
  refine ⟨rfl, rfl, rfl, rfl, rfl⟩

/-- Claim C2: with the v3 DDL (`name TEXT NOT NULL UNIQUE`, uniqueness on
the name alone), the same name cannot appear once as author and once as
translator: after `getOrAddWriter "X" author` succeeds, `getOrAddWriter "X"
translator` hits a UNIQUE violation instead of creating a second row.  This
contradicts the claim (and the spec's `UNIQUE(name,type)` schema). -/
theorem getOrAddWriter_cross_type_unique_violation :
    getOrAddWriter emptyStore "X" .author = .ok (1, storeWriterX) ∧
    getOrAddWriter storeWriterX "X" .translator = .error .uniqueViolation := by
  exact ⟨rfl, rfl⟩

/-- Claim C3: the v2 migration block is not a no-op: on a version-1 store
whose `books` table lacks the `translator` column (the normal v1 state), the
probe `SELECT translator ...` throws and the catch branch executes
`ALTER TABLE books ADD COLUMN translator TEXT` — reintroducing exactly the
superseded column the claim (and the code's own comment "We should not
re-add the translator TEXT column here") says is not reintroduced. -/
theorem v2step_reintroduces_translator_column :
    storeV1.schema.translator = false ∧
    (v2step storeV1).schema.translator = true ∧
    (v2step storeV1).version = 2 := by
  exact ⟨rfl, rfl, rfl⟩

/-- Counterexample to claim C4: a concrete version-3 store on which the v4
author backfill fails (foreign-key violation: `author_id = 7` references no
writer), yet `migrate` completes normally — version 4 is reached and the
failed insert is silently skipped rather than aborting with a
MigrationError (no such error exists in the code). -/
theorem migrate_backfill_failure_ignored_cex :
    insertAuthorLinks { storeV3broken with foreignKeys := true } =
      .error .primaryKeyViolation ∧
    (migrate storeV3broken).version = 4 ∧
    (migrate storeV3broken).bookWriters = [] := by
  exact ⟨rfl, rfl, rfl⟩

/-- Claim C4 as amended: for every version-3 store (with no `translator_id`
column) on which the v4 author-backfill insert fails, the failure is caught
and suppressed by the surrounding `try/catch`: migration continues, leaves
`book_writers` unchanged, performs the rebuild and completes with
version 4. -/
theorem migrate_swallows_backfill_failure (s : DBState) (e : DBError)
    (h3 : s.version = 3) (htid : s.schema.translator_id = false)
    (herr : insertAuthorLinks { s with foreignKeys := true } = .error e) :
    (migrate s).version = 4 ∧ (migrate s).bookWriters = s.bookWriters := by
  rw [h3] at herr
  unfold migrate
  rw [h3]
  norm_num
  unfold v4step
  cases hsa : s.schema.author_id with
  | true => simp [hsa, herr, htid]
  | false => simp [hsa, htid]

/-- Witness for `migrate_swallows_backfill_failure` at `storeV3broken`. -/
theorem migrate_swallows_backfill_failure_witness :
    storeV3broken.version = 3 ∧
    storeV3broken.schema.translator_id = false ∧
    insertAuthorLinks { storeV3broken with foreignKeys := true } =
      .error .primaryKeyViolation ∧
    ((migrate storeV3broken).version = 4 ∧
      (migrate storeV3broken).bookWriters = storeV3broken.bookWriters) :=
  ⟨rfl, rfl, rfl,
    migrate_swallows_backfill_failure storeV3broken .primaryKeyViolation
      rfl rfl rfl⟩

/-- Counterexample to claim C5: `addReview` with `rating = 0` neither raises
a ValidationError nor refuses to persist — it inserts the row with rating 0
and returns the new id. -/
theorem addReview_rating_zero_accepted_cex :
    addReview storeOneBook "2026-10-11" ⟨1, none, 0, "bad"⟩ =
      .ok (1, { storeOneBook with
                reviews := [⟨1, 1, "2026-10-11", 0, "bad"⟩],
                reviewSeq := 1 }) := by
  exact rfl

/-- Claim C5 as amended: `addReview` performs no rating validation at all.
For every store whose `books` table contains the target `book_id` and every
integer rating — in particular 0, 6 and -1 — it persists the review row with
that rating and returns the new review id. -/
theorem addReview_persists_any_rating (s : DBState) (today : String)
    (r : ReviewInput) (h : (s.books.any fun b => b.id == r.book_id) = true) :
    addReview s today r =
      .ok (s.reviewSeq + 1,
        { s with
          reviews := s.reviews ++
            [⟨s.reviewSeq + 1, r.book_id, r.date_read.getD today, r.rating,
              r.review⟩],
          reviewSeq := s.reviewSeq + 1 }) := by
  unfold addReview
  rw [h]
  simp

/-- Witness for `addReview_persists_any_rating`: rating 6 on a real book. -/
theorem addReview_persists_any_rating_witness :
    (storeOneBook.books.any fun b => b.id == (1 : Nat)) = true ∧
    addReview storeOneBook "2026-10-11"
        ⟨1, none, 6, "x"⟩ =
      .ok (storeOneBook.reviewSeq + 1,
        { storeOneBook with
          reviews := storeOneBook.reviews ++
            [⟨storeOneBook.reviewSeq + 1, 1, "2026-10-11", 6, "x"⟩],
          reviewSeq := storeOneBook.reviewSeq + 1 }) :=
  ⟨rfl, addReview_persists_any_rating storeOneBook "2026-10-11"
    ⟨1, none, 6, "x"⟩ rfl⟩

/-- Claim C6: `getOrAddWriter` deduplicates per `(name, type)`.  Whenever a
call succeeds with id `wid`, calling again with the same arguments returns
the very same id and leaves the store untouched (hence every further call
does too); the first call appended exactly one writer row (the new
`(wid, name, type)` row) when the pair was absent, and none when it was
already present. -/
theorem getOrAddWriter_dedup (s : DBState) (name : String) (ty : WriterType)
    (wid : Nat) (s2 : DBState)
    (h : getOrAddWriter s name ty = .ok (wid, s2)) :
    getOrAddWriter s2 name ty = .ok (wid, s2) ∧
    (writersLookup s name ty = none →
      s2.writers = s.writers ++ [⟨wid, name, ty⟩]) ∧
    (∀ w, writersLookup s name ty = some w → s2 = s ∧ wid = w.id) := by
  unfold getOrAddWriter at h
  cases hl : writersLookup s name ty with
  | some w =>
      rw [hl] at h
      simp only [Except.ok.injEq, Prod.mk.injEq] at h
      obtain ⟨hw, hs⟩ := h
      subst hs
      refine ⟨?_, ?_, ?_⟩
      · unfold getOrAddWriter
        rw [hl]
        simp [hw]
      · intro hn
        exact Option.noConfusion hn
      · intro w2 hw2
        injection hw2 with hww
        subst hww
        exact ⟨rfl, hw.symm⟩
  | none =>
      rw [hl] at h
      by_cases ha : (s.writers.any fun w => w.name == name) = true
      · rw [if_pos ha] at h
        cases h
      · rw [if_neg ha] at h
        simp only [Except.ok.injEq, Prod.mk.injEq] at h
        obtain ⟨hwid, hs2⟩ := h
        subst hwid
        have hws : s2.writers = s.writers ++ [⟨s.writerSeq + 1, name, ty⟩] := by
          rw [← hs2]
        refine ⟨?_, ?_, ?_⟩
        · unfold getOrAddWriter writersLookup
          rw [hws, List.find?_append]
          unfold writersLookup at hl
          rw [hl]
          have hseq : s2.writerSeq = s.writerSeq + 1 := by rw [← hs2]
          simp [hseq, ← hs2]
        · intro _
          exact hws
        · intro w2 hw2
          exact Option.noConfusion hw2

/-- Witness for `getOrAddWriter_dedup`: first call on the empty store. -/
theorem getOrAddWriter_dedup_witness :
    getOrAddWriter emptyStore "X" .author = .ok (1, storeWriterX) ∧
    (getOrAddWriter storeWriterX "X" .author = .ok (1, storeWriterX) ∧
      (writersLookup emptyStore "X" .author = none →
        storeWriterX.writers = emptyStore.writers ++ [⟨1, "X", .author⟩]) ∧
      (∀ w, writersLookup emptyStore "X" .author = some w →
        storeWriterX = emptyStore ∧ 1 = w.id)) :=
  ⟨rfl, getOrAddWriter_dedup emptyStore "X" .author 1 storeWriterX rfl⟩

/-- Claim C8: `updateBook` with an empty patch is a no-op — the early return
fires before any UPDATE statement, so the entire store (the target row and
every other row) is returned unchanged. -/
theorem updateBook_empty_patch_noop (s : DBState) (bookId : Nat) :
    updateBook s bookId {} = s := by
  rfl

/-- Counterexample to claim C9: `addBook` with an empty title does not fail;
it persists the row (title `""`) and returns its id. -/
theorem addBook_empty_title_accepted_cex :
    addBook emptyStore ⟨"", none, none, none⟩ =
      (1, { emptyStore with
            books := [⟨1, "", none, none, none, none, none, none, none⟩],
            bookSeq := 1 }) := by
  exact rfl

/-- Counterexample to claim C7: in a store with books `(id 1, title "Z",
year 5)`, `(id 2, title "A", year 5)`, `(id 3, title "B", year 7)`,
`getBooks {year: 5}` returns titles `["Z", "A"]` — the books are ordered by
id, not by title as claimed; and `getBooks {year: 0}` returns all three
books instead of the books whose `pub_year` is 0 (the falsy year disables
the filter), so the claim also fails at year 0. -/
theorem getBooks_year_title_order_cex :
    (getBooks storeYears (some ⟨none, some 5⟩)).map (fun v => v.title) =
      ["Z", "A"] ∧
    (getBooks storeYears (some ⟨none, some 0⟩)).map (fun v => v.id) =
      [1, 2, 3] := by
  exact ⟨rfl, rfl⟩

/-- Claim C7 as amended: for every nonzero year `y` (year 0 disables the
filter) and every store with distinct book ids, `getBooks {year: y}` returns
exactly the books whose `pub_year` equals `y` — one view per matching book,
ordered by book id (not by title) — and each view is populated: its
`reviews` are the book's reviews and its `authors`/`translators` are exactly
the writers linked to the book in those roles. -/
theorem getBooks_year_by_id_populated (y : Int) (s : DBState)
    (hy : y ≠ 0) (hnd : (s.books.map fun b => b.id).Nodup) :
    getBooks s (some ⟨none, some y⟩) =
      (sortLe bookIdLe (s.books.filter fun b => b.pub_year == some y)).map
        (fun b => bookGroupView s b) ∧
    ∀ v ∈ getBooks s (some ⟨none, some y⟩),
      v.reviews = bookReviews s v.id ∧
      (∀ wv, wv ∈ v.authors ↔ linkedWriter s v.id .author wv) ∧
      (∀ wv, wv ∈ v.translators ↔ linkedWriter s v.id .translator wv) := by
  have hfilter : s.books.filter (filterPred (some ⟨none, some y⟩)) =
      s.books.filter fun b => b.pub_year == some y :=
    List.filter_congr fun b _ => by rw [filterPred_year y hy b]
  have heq : getBooks s (some ⟨none, some y⟩) =
      (sortLe bookIdLe (s.books.filter fun b => b.pub_year == some y)).map
        fun b => bookGroupView s b := by
    rw [getBooks_eq_groups s _ hnd, hfilter]
  refine ⟨heq, ?_⟩
  intro v hv
  rw [heq] at hv
  simp only [List.mem_map] at hv
  obtain ⟨b, hb, rfl⟩ := hv
  rw [bookGroupView_id, bookGroupView_reviews]
  exact ⟨rfl, fun wv => bookGroupView_role s b .author wv,
    fun wv => bookGroupView_role s b .translator wv⟩

/-- Witness for `getBooks_year_by_id_populated` at `storeYears`, year 5. -/
theorem getBooks_year_by_id_populated_witness :
    ((5 : Int) ≠ 0 ∧ (storeYears.books.map fun b => b.id).Nodup) ∧
    (getBooks storeYears (some ⟨none, some 5⟩) =
      (sortLe bookIdLe
        (storeYears.books.filter fun b => b.pub_year == some 5)).map
        (fun b => bookGroupView storeYears b) ∧
    ∀ v ∈ getBooks storeYears (some ⟨none, some 5⟩),
      v.reviews = bookReviews storeYears v.id ∧
      (∀ wv, wv ∈ v.authors ↔ linkedWriter storeYears v.id .author wv) ∧
      (∀ wv, wv ∈ v.translators ↔
        linkedWriter storeYears v.id .translator wv)) :=
  ⟨⟨by decide, by decide⟩,
    getBooks_year_by_id_populated 5 storeYears (by decide) (by decide)⟩

/-- Claim C10: `getBooks` treats falsy filter values as no filter at all:
`{id: 0}` and `{year: 0}` both produce the unfiltered query, so on any store
they return the same result as a filterless call — namely all books (their
ids, in id order). -/
theorem getBooks_falsy_filter_unfiltered (s : DBState)
    (hnd : (s.books.map fun b => b.id).Nodup) :
    getBooks s (some ⟨some 0, none⟩) = getBooks s none ∧
    getBooks s (some ⟨none, some 0⟩) = getBooks s none ∧
    (getBooks s none).map (fun v => v.id) =
      (sortLe bookIdLe s.books).map fun b => b.id := by
  refine ⟨rfl, rfl, ?_⟩
  rw [getBooks_eq_groups s none hnd, List.map_map]
  have hfil : s.books.filter (filterPred none) = s.books := by
    rw [show filterPred none = fun _ : BookRow => true from rfl,
      List.filter_true]
  rw [hfil]
  refine List.map_congr_left fun b _ => ?_
  show (bookGroupView s b).id = b.id
  exact bookGroupView_id s b

/-- Witness for `getBooks_falsy_filter_unfiltered` at `storeYears`. -/
theorem getBooks_falsy_filter_unfiltered_witness :
    (storeYears.books.map fun b => b.id).Nodup ∧
    (getBooks storeYears (some ⟨some 0, none⟩) = getBooks storeYears none ∧
      getBooks storeYears (some ⟨none, some 0⟩) = getBooks storeYears none ∧
      (getBooks storeYears none).map (fun v => v.id) =
        (sortLe bookIdLe storeYears.books).map fun b => b.id) :=
  ⟨by decide, getBooks_falsy_filter_unfiltered storeYears (by decide)⟩

/-- Claim C9 as amended: `addBook` validates nothing.  For every input —
empty title included — it inserts exactly one new `books` row carrying the
given fields and returns the fresh id. -/
theorem addBook_always_inserts (s : DBState) (b : BookInput) :
    (addBook s b).1 = s.bookSeq + 1 ∧
    (addBook s b).2.books =
      s.books ++
        [⟨s.bookSeq + 1, b.title, none, none, none, none, b.pages,
          b.pub_year, b.genre⟩] := by
  exact ⟨rfl, rfl⟩

end Libro
